import Mathlib

/-!
Verification development for the PharmVector document-embedding and
similarity-search pipeline.

The embedding mirrors:
- `app/routers/documents.py` (`create_document`, `search_documents`,
  `delete_document`): the request path, including the raw SQL similarity
  query (filter on owner and non-NULL embedding, order by the pgvector
  cosine-distance operator, LIMIT 3) and the textual vector encoding.
- `app/tasks/embeddings.py` (`generate_document_embedding`): the Celery
  indexing task that computes an embedding and writes it with an
  `UPDATE ... WHERE id = :document_id` statement.
- `app/utils/embeddings.py` (`generate_embedding`): the embedder wrapper
  around the sentence-transformers model.
- `app/schemas.py` (`DocumentSearchRequest`): request validation.

Float vectors are modelled as lists of rationals.  The pgvector `<=>`
cosine-distance operator is part of the external PostgreSQL extension, not
of the repository, so the query is parametrised by a distance function
`dist : Vec → Vec → ℚ` standing for `<=>`; every theorem about the query
holds for an arbitrary `dist`, exactly as the SQL text treats the operator
as a black box.
-/

namespace PharmVector

/-- An embedding vector: the float list produced by `model.encode(text).tolist()`,
modelled over the rationals. -/
abbrev Vec := List ℚ

/-- Modelled from the spec: `app/models.py` (the SQLAlchemy `Document` model) is
not under `src/`.  The spec's data model defines a Document as identity
(opaque id, owner id), title, content, an optional fixed-length embedding
vector that is absent until indexed, and an immutable creation timestamp. -/
structure Document where
  id : Nat
  user_id : Nat
  title : String
  content : String
  embedding : Option Vec
  created_at : Nat
deriving Repr, DecidableEq

/-- The documents table. -/
abbrev DB := List Document

/-- Mirrors `create_document` (`app/routers/documents.py` lines 22–30): a new
row is inserted with the given title, content and owner; the embedding column
is not set, so it is NULL (the spec's data model: absent until indexed). -/
def create_document (db : DB) (new_id uid : Nat) (title content : String)
    (now : Nat) : DB :=
  db ++ [⟨new_id, uid, title, content, none, now⟩]

/-- Mirrors the indexing task's store write (`app/tasks/embeddings.py` line 19):
`update(Document).where(Document.id == document_id).values(embedding=embedding)`.
Every row whose id matches gets the new embedding; no row is inserted. -/
def setEmbedding (db : DB) (document_id : Nat) (v : Vec) : DB :=
  db.map fun d => if d.id = document_id then { d with embedding := some v } else d

/-- Mirrors `delete_document` (`app/routers/documents.py` line 132):
`delete(Document).where(Document.id == document_id)`. -/
def deleteDocument (db : DB) (document_id : Nat) : DB :=
  db.filter fun d => d.id ≠ document_id

/-- A row of the similarity query's result set (`SELECT id, title, content,
created_at, 1 - (embedding <=> ...) as similarity`). -/
structure SearchRow where
  id : Nat
  title : String
  content : String
  similarity : ℚ
  created_at : Nat
deriving Repr, DecidableEq

/-- The `WHERE user_id = :user_id AND embedding IS NOT NULL` clause of the
search SQL (`app/routers/documents.py` line 55). -/
def candidates (db : DB) (uid : Nat) : DB :=
  db.filter fun d => d.user_id = uid ∧ d.embedding.isSome

/-- The sort key of the `ORDER BY embedding <=> CAST(:query_embedding AS vector)`
clause: the distance from the row's embedding to the query vector.  On the
filtered rows the embedding is always present; `getD []` only discharges the
`Option`. -/
def docKey (dist : Vec → Vec → ℚ) (q : Vec) (d : Document) : ℚ :=
  dist (d.embedding.getD []) q

/-- The `SELECT` list of the search SQL: the row's columns together with
`1 - (embedding <=> CAST(:query_embedding AS vector)) as similarity`
(`app/routers/documents.py` line 53). -/
def toRow (dist : Vec → Vec → ℚ) (q : Vec) (d : Document) : SearchRow :=
  ⟨d.id, d.title, d.content, 1 - docKey dist q d, d.created_at⟩

/-- The whole similarity query of `search_documents`
(`app/routers/documents.py` lines 47–58): filter to the owner's rows with a
non-NULL embedding, order by distance to the query vector ascending, keep the
first 3 (`LIMIT 3`), and project each row to the `SELECT` list. -/
def topKBySimilarity (dist : Vec → Vec → ℚ) (db : DB) (uid : Nat) (q : Vec) :
    List SearchRow :=
  ((((candidates db uid).mergeSort
      fun a b => decide (docKey dist q a ≤ docKey dist q b)).take 3).map
    (toRow dist q))

/-- Outcome of one invocation of the Celery indexing task: either the dict
returned on success (`{"status": "success", "document_id": id}`,
`app/tasks/embeddings.py` line 22) or a re-raised exception (line 25). -/
inductive TaskOutcome where
  | success (document_id : Nat)
  | raised (msg : String)
deriving Repr, DecidableEq

/-- Mirrors `generate_document_embedding` (`app/tasks/embeddings.py` lines
13–27).  The embedding is computed first (line 15); an exception there
propagates before any session is opened, leaving the table untouched.  The
`UPDATE` / `commit` pair may itself raise — modelled by the injected
`writeFault` — in which case the session is rolled back, the table is left
unchanged, and the exception is re-raised (lines 23–25).  Otherwise the update
is committed and the success dict is returned (lines 19–22).  `embed` stands
for `generate_embedding`, which can fail with `ModelUnavailable`. -/
def generate_document_embedding (embed : String → Except String Vec)
    (writeFault : Option String) (db : DB) (document_id : Nat)
    (content : String) : TaskOutcome × DB :=
  match embed content with
  | .error e => (.raised e, db)
  | .ok v =>
    match writeFault with
    | some e => (.raised e, db)
    | none => (.success document_id, setEmbedding db document_id v)

/-- Events observable at the search handler's external boundary, in program
order: the embedder call and the SQL query execution. -/
inductive SearchEvent where
  | embedCall
  | storeQuery
deriving Repr, DecidableEq

/-- Mirrors `search_documents` (`app/routers/documents.py` lines 44–64):
`generate_embedding` runs at line 44, before the SQL is built or executed; an
exception there propagates out of the handler, and `db.execute` (line 60) runs
only after a successful embedding.  The second component records which
boundary calls were issued, in order. -/
def search_documents (embed : String → Except String Vec)
    (dist : Vec → Vec → ℚ) (db : DB) (uid : Nat) (queryText : String) :
    Except String (List SearchRow) × List SearchEvent :=
  match embed queryText with
  | .error e => (.error e, [.embedCall])
  | .ok v => (.ok (topKBySimilarity dist db uid v), [.embedCall, .storeQuery])

/-- Errors as the API surfaces them, by kind: a pydantic validation failure
(HTTP 422), the handlers' explicit `HTTPException` not-found (404,
`app/routers/documents.py` lines 105–109), and an unhandled backend failure
(500). -/
inductive ApiError where
  | validationFailed (msg : String)
  | notFound (msg : String)
  | backendUnavailable (msg : String)
deriving Repr, DecidableEq

/-- Mirrors `DocumentSearchRequest` (`app/schemas.py` lines 45–46). -/
structure DocumentSearchRequest where
  query : String
deriving Repr, DecidableEq

/-- Mirrors pydantic's validation of `DocumentSearchRequest`: the body must
carry a `query` field that is a string (`none` models a missing field or a
non-string value).  The schema declares `query: str` with no further
constraint — no `min_length` — so every string, the empty string included,
validates. -/
def validate_search_request :
    Option String → Except ApiError DocumentSearchRequest
  | none => .error (.validationFailed "field required: query")
  | some s => .ok ⟨s⟩

/-- The search endpoint boundary: pydantic validation of the request body,
then the handler; a handler-level failure surfaces as a backend error,
distinct in kind from a validation failure. -/
def search_endpoint (embed : String → Except String Vec)
    (dist : Vec → Vec → ℚ) (db : DB) (uid : Nat)
    (queryField : Option String) :
    Except ApiError (List SearchRow) × List SearchEvent :=
  match validate_search_request queryField with
  | .error e => (.error e, [])
  | .ok req =>
    match search_documents embed dist db uid req.query with
    | (.error e, evs) => (.error (.backendUnavailable e), evs)
    | (.ok rows, evs) => (.ok rows, evs)

/-- The fixed embedding dimensionality D: model-determined, 384 for the
`all-MiniLM-L6-v2` sentence-transformers model. -/
def embedding_dim : Nat := 384

/-- Modelled from the spec: the `sentence_transformers` library that implements
`SentenceTransformer('all-MiniLM-L6-v2').encode` is an external dependency,
outside `src/`.  The spec's Embedder contract: `embed(text) -> vector of
length D`, pure and deterministic for a fixed model version, tolerating empty
and very short strings.  The concrete values here are a stand-in; only
dimensionality and determinism are contractual. -/
def model_encode (text : String) : Vec :=
  (List.range embedding_dim).map fun i =>
    (((text.data.map Char.toNat).sum + i : ℕ) : ℚ)

/-- Mirrors `get_embedding_model` (`app/utils/embeddings.py` lines 4–6): the
`lru_cache` memoizes the loaded model, so every call observes the same
instance; in a pure model the cached and the fresh instance coincide. -/
def get_embedding_model : String → Vec := model_encode

/-- Mirrors `generate_embedding` (`app/utils/embeddings.py` lines 9–12):
encode the text with the cached model and convert the array to a list. -/
def generate_embedding (text : String) : Vec :=
  get_embedding_model text

/-- Mirrors `str.join` as used at `app/routers/documents.py` line 45:
the empty string for no pieces, the sole piece alone, otherwise the pieces
separated by single commas. -/
def join_comma : List String → String
  | [] => ""
  | [p] => p
  | p :: ps => p ++ "," ++ join_comma ps

/-- Mirrors the query-vector textual encoding (`app/routers/documents.py`
line 45): `embedding_str = '[' + ','.join(map(str, query_embedding)) + ']'`.
Python's float-to-decimal rendering `str` is the parameter `render`. -/
def embedding_str (render : ℚ → String) (v : Vec) : String :=
  "[" ++ join_comma (v.map render) ++ "]"

/-- Splits a character list at every comma; the separators are consumed. -/
def splitOnComma : List Char → List (List Char)
  | [] => [[]]
  | c :: cs =>
    if c = ',' then [] :: splitOnComma cs
    else
      match splitOnComma cs with
      | [] => [[c]]
      | g :: gs => (c :: g) :: gs

/-- Decoding of the wire format at the store boundary — what
`CAST(:query_embedding AS vector)` (`app/routers/documents.py` lines 53, 56)
consumes: the encoding must be a bracketed comma-separated list, and its
elements are recovered by stripping the brackets and splitting the body at
the commas. -/
def parse_vector_text (s : String) : Option (List String) :=
  match s.data with
  | [] => none
  | c :: rest =>
    if c = '[' then
      match rest.reverse with
      | [] => none
      | d :: mid =>
        if d = ']' then
          some ((splitOnComma mid.reverse).map fun cs => String.mk cs)
        else none
    else none

theorem candidates_mem {db : DB} {uid : Nat} {d : Document}
    (h : d ∈ candidates db uid) :
    d ∈ db ∧ d.user_id = uid ∧ d.embedding.isSome := by
  have h' := List.of_mem_filter h
  have hmem := List.mem_of_mem_filter h
  simp only [decide_eq_true_eq] at h'
  exact ⟨hmem, h'.1, h'.2⟩

theorem topK_row_origin {dist : Vec → Vec → ℚ} {db : DB} {uid : Nat} {q : Vec}
    {r : SearchRow} (h : r ∈ topKBySimilarity dist db uid q) :
    ∃ d ∈ db, d.user_id = uid ∧ d.embedding.isSome ∧ r = toRow dist q d := by
  unfold topKBySimilarity at h
  rcases List.mem_map.mp h with ⟨d, hd, rfl⟩
  have hd' : d ∈ (candidates db uid).mergeSort
      (fun a b => decide (docKey dist q a ≤ docKey dist q b)) :=
    List.mem_of_mem_take hd
  have hc : d ∈ candidates db uid := List.mem_mergeSort.mp hd'
  rcases candidates_mem hc with ⟨h1, h2, h3⟩
  exact ⟨d, h1, h2, h3, rfl⟩

/-- C1: the search query returns at most 3 rows, and every returned row comes
from a stored document that is owned by the querying user and whose embedding
is present (non-NULL); a document with an absent embedding is filtered out by
the `WHERE` clause, never scored. -/
theorem topK_at_most_k_owned_and_indexed (dist : Vec → Vec → ℚ) (db : DB)
    (uid : Nat) (q : Vec) :
    (topKBySimilarity dist db uid q).length ≤ 3 ∧
    ∀ r ∈ topKBySimilarity dist db uid q,
      ∃ d ∈ db, d.user_id = uid ∧ d.embedding.isSome ∧ r = toRow dist q d := by
  constructor
  · unfold topKBySimilarity
    rw [List.length_map]
    exact List.length_take_le 3 _
  · intro r hr
    exact topK_row_origin hr

/-- C5: the indexing task's store write is idempotent: applying the
`UPDATE ... WHERE id = :document_id SET embedding = :v` twice with the same
vector leaves the table equal to applying it once. -/
theorem setEmbedding_idempotent (db : DB) (document_id : Nat) (v : Vec) :
    setEmbedding (setEmbedding db document_id v) document_id v =
      setEmbedding db document_id v := by
  unfold setEmbedding
  rw [List.map_map]
  apply List.map_congr_left
  intro d _
  by_cases h : d.id = document_id <;> simp [h]

/-- C2: every returned row's similarity score is 1 minus the distance (the
pgvector cosine-distance operator) between the originating document's stored
embedding and the query vector, and the rows are ordered by similarity
descending — the `ORDER BY` sorts by distance ascending, and similarity is
1 minus that same distance. -/
theorem topK_similarity_formula_and_sorted (dist : Vec → Vec → ℚ) (db : DB)
    (uid : Nat) (q : Vec) :
    (∀ r ∈ topKBySimilarity dist db uid q,
      ∃ d ∈ db, d.user_id = uid ∧ d.embedding.isSome ∧ r = toRow dist q d ∧
        r.similarity = 1 - dist (d.embedding.getD []) q) ∧
    (topKBySimilarity dist db uid q).Pairwise
      fun r₁ r₂ => r₂.similarity ≤ r₁.similarity := by
  constructor
  · intro r hr
    rcases topK_row_origin hr with ⟨d, hd, huid, hsome, rfl⟩
    exact ⟨d, hd, huid, hsome, rfl, rfl⟩
  · unfold topKBySimilarity
    rw [List.pairwise_map]
    refine List.Pairwise.sublist (List.take_sublist 3 _) ?_
    have hs : ((candidates db uid).mergeSort fun a b =>
        decide (docKey dist q a ≤ docKey dist q b)).Pairwise
        (fun a b => decide (docKey dist q a ≤ docKey dist q b) = true) := by
      apply List.sorted_mergeSort
      · intro a b c hab hbc
        simp only [decide_eq_true_eq] at *
        exact le_trans hab hbc
      · intro a b
        simp only [Bool.or_eq_true, decide_eq_true_eq]
        exact le_total _ _
    refine hs.imp ?_
    intro a b hab
    simp only [decide_eq_true_eq] at hab
    simp only [toRow]
    linarith

/-- C2 witness: the ranking theorem instantiated at a one-document table and
a constant distance function. -/
theorem topK_similarity_formula_and_sorted_witness :
    (∀ r ∈ topKBySimilarity (fun _ _ => 0)
        [⟨1, 0, "a", "b", some [1], 0⟩] 0 [1],
      ∃ d ∈ [(⟨1, 0, "a", "b", some [1], 0⟩ : Document)], d.user_id = 0 ∧
        d.embedding.isSome ∧ r = toRow (fun _ _ => 0) [1] d ∧
        r.similarity = 1 - (fun _ _ => (0 : ℚ)) (d.embedding.getD []) [1]) ∧
    (topKBySimilarity (fun _ _ => 0)
        [⟨1, 0, "a", "b", some [1], 0⟩] 0 [1]).Pairwise
      fun r₁ r₂ => r₂.similarity ≤ r₁.similarity :=
  topK_similarity_formula_and_sorted (fun _ _ => 0)
    [⟨1, 0, "a", "b", some [1], 0⟩] 0 [1]

theorem setEmbedding_of_absent {db : DB} {document_id : Nat} {v : Vec}
    (h : ∀ d ∈ db, d.id ≠ document_id) :
    setEmbedding db document_id v = db := by
  unfold setEmbedding
  have h' : ∀ d ∈ db,
      (if d.id = document_id then { d with embedding := some v } else d) = d := by
    intro d hd
    simp [h d hd]
  rw [List.map_congr_left h']
  exact List.map_id db

/-- C3: immediately after creation the new document's embedding is absent and
no search row of its owner carries its id; after the indexing task's write
lands, its embedding is present and the document belongs to the candidate set
of its owner's similarity query (the rows the `WHERE` clause admits). -/
theorem document_eventual_consistency (dist : Vec → Vec → ℚ) (db : DB)
    (new_id uid : Nat) (title content : String) (now : Nat) (q v : Vec)
    (hfresh : ∀ d ∈ db, d.id ≠ new_id) :
    (∃ d ∈ create_document db new_id uid title content now,
        d.id = new_id ∧ d.embedding = none) ∧
    (∀ r ∈ topKBySimilarity dist
        (create_document db new_id uid title content now) uid q,
        r.id ≠ new_id) ∧
    (∃ d ∈ setEmbedding
        (create_document db new_id uid title content now) new_id v,
        d.id = new_id ∧ d.embedding = some v) ∧
    (∃ d ∈ candidates (setEmbedding
        (create_document db new_id uid title content now) new_id v) uid,
        d.id = new_id) := by
  refine ⟨⟨⟨new_id, uid, title, content, none, now⟩, ?_, rfl, rfl⟩, ?_, ?_, ?_⟩
  · simp [create_document]
  · intro r hr
    rcases topK_row_origin hr with ⟨d, hd, _, hsome, rfl⟩
    simp only [toRow]
    rcases List.mem_append.mp hd with hdb | hnew
    · exact hfresh d hdb
    · have : d = ⟨new_id, uid, title, content, none, now⟩ := by
        simpa using hnew
      subst this
      simp at hsome
  · refine ⟨⟨new_id, uid, title, content, some v, now⟩, ?_, rfl, rfl⟩
    unfold setEmbedding
    refine List.mem_map.mpr ⟨⟨new_id, uid, title, content, none, now⟩, ?_, ?_⟩
    · simp [create_document]
    · simp
  · refine ⟨⟨new_id, uid, title, content, some v, now⟩, ?_, rfl⟩
    refine List.mem_filter.mpr ⟨?_, by simp⟩
    unfold setEmbedding
    refine List.mem_map.mpr ⟨⟨new_id, uid, title, content, none, now⟩, ?_, ?_⟩
    · simp [create_document]
    · simp

/-- C3 witness: the eventual-consistency theorem instantiated on an empty
table with a fresh id. -/
theorem document_eventual_consistency_witness :
    (∃ d ∈ create_document [] 1 2 "t" "c" 0, d.id = 1 ∧ d.embedding = none) ∧
    (∀ r ∈ topKBySimilarity (fun _ _ => 0)
        (create_document [] 1 2 "t" "c" 0) 2 [1],
        r.id ≠ 1) ∧
    (∃ d ∈ setEmbedding (create_document [] 1 2 "t" "c" 0) 1 [1],
        d.id = 1 ∧ d.embedding = some [1]) ∧
    (∃ d ∈ candidates (setEmbedding (create_document [] 1 2 "t" "c" 0) 1 [1]) 2,
        d.id = 1) :=
  document_eventual_consistency (fun _ _ => 0) [] 1 2 "t" "c" 0 [1] [1]
    (by simp)

/-- C4: when the task's target document was deleted between enqueue and
execution, the `UPDATE ... WHERE id = :document_id` matches no row: the task
raises no error (it returns the success dict) and the table is exactly the
post-deletion table — the record is not recreated and no other document
changes. -/
theorem task_noop_on_deleted_document (embed : String → Except String Vec)
    (db : DB) (document_id : Nat) (content : String) (v : Vec)
    (hembed : embed content = .ok v) :
    generate_document_embedding embed none (deleteDocument db document_id)
        document_id content
      = (.success document_id, deleteDocument db document_id) := by
  unfold generate_document_embedding
  rw [hembed]
  have habs : ∀ d ∈ deleteDocument db document_id, d.id ≠ document_id := by
    intro d hd
    have := List.of_mem_filter hd
    simpa using this
  simp [setEmbedding_of_absent habs]

/-- C4 witness: the delete-race theorem at a concrete one-document table. -/
theorem task_noop_on_deleted_document_witness :
    generate_document_embedding (fun _ => Except.ok [1]) none
        (deleteDocument [⟨7, 0, "t", "c", none, 0⟩] 7) 7 "c"
      = (.success 7, deleteDocument [⟨7, 0, "t", "c", none, 0⟩] 7) :=
  task_noop_on_deleted_document (fun _ => Except.ok [1])
    [⟨7, 0, "t", "c", none, 0⟩] 7 "c" [1] rfl

/-- C7: the search fails closed — when embedding the query text fails, the
handler fails with that same error, the store query is never issued, and in
particular no (stale or empty) result list is returned in its place. -/
theorem search_fails_closed (embed : String → Except String Vec)
    (dist : Vec → Vec → ℚ) (db : DB) (uid : Nat) (queryText : String)
    (e : String) (h : embed queryText = .error e) :
    (search_documents embed dist db uid queryText).1 = .error e ∧
    SearchEvent.storeQuery ∉ (search_documents embed dist db uid queryText).2 := by
  unfold search_documents
  rw [h]
  exact ⟨rfl, by simp⟩

/-- C7 witness: a failing embedder makes the concrete search fail with the
same error without touching the store. -/
theorem search_fails_closed_witness :
    (search_documents (fun _ => .error "ModelUnavailable") (fun _ _ => 0)
        [] 0 "q").1 = .error "ModelUnavailable" ∧
    SearchEvent.storeQuery ∉
      (search_documents (fun _ => .error "ModelUnavailable") (fun _ _ => 0)
        [] 0 "q").2 :=
  search_fails_closed (fun _ => .error "ModelUnavailable") (fun _ _ => 0)
    [] 0 "q" "ModelUnavailable" rfl

/-- C10: a task invocation whose `UPDATE` matches no row still commits and
returns the success dict, so an at-least-once queue records it as completed;
and whenever the task raises, the cause is an embedder failure or a failure
of the database write itself, and the rollback leaves the table unchanged. -/
theorem task_success_on_missing_row_and_raise_rolls_back
    (embed : String → Except String Vec) (writeFault : Option String)
    (db : DB) (document_id : Nat) (content : String) :
    (∀ v, embed content = .ok v → writeFault = none →
      (∀ d ∈ db, d.id ≠ document_id) →
      generate_document_embedding embed writeFault db document_id content
        = (.success document_id, db)) ∧
    (∀ e, (generate_document_embedding embed writeFault db document_id
          content).1 = .raised e →
      ((∃ e', embed content = .error e') ∨ writeFault = some e) ∧
      (generate_document_embedding embed writeFault db document_id
          content).2 = db) := by
  constructor
  · intro v hv hw habs
    subst hw
    unfold generate_document_embedding
    rw [hv]
    simp [setEmbedding_of_absent habs]
  · intro e he
    unfold generate_document_embedding at he ⊢
    cases h : embed content with
    | error e' =>
      exact ⟨Or.inl ⟨e', rfl⟩, rfl⟩
    | ok v =>
      cases hw : writeFault with
      | none =>
        rw [h, hw] at he
        simp at he
      | some f =>
        rw [h, hw] at he
        simp at he
        exact ⟨Or.inr (by rw [he]), rfl⟩

/-- C10 witness: the task at an empty table commits and reports success. -/
theorem task_success_on_missing_row_and_raise_rolls_back_witness :
    generate_document_embedding (fun _ => Except.ok [1]) none [] 9 "c"
      = (.success 9, []) :=
  (task_success_on_missing_row_and_raise_rolls_back (fun _ => Except.ok [1])
    none [] 9 "c").1 [1] rfl rfl (by simp)

/-- C1 witness: the soundness theorem instantiated at a two-document table in
which only the indexed document owned by the queried user may be returned. -/
theorem topK_at_most_k_owned_and_indexed_witness :
    (topKBySimilarity (fun _ _ => 0)
        [⟨1, 0, "a", "b", some [1], 0⟩, ⟨2, 5, "x", "y", none, 0⟩] 0
        [1]).length ≤ 3 ∧
    ∀ r ∈ topKBySimilarity (fun _ _ => 0)
        [⟨1, 0, "a", "b", some [1], 0⟩, ⟨2, 5, "x", "y", none, 0⟩] 0 [1],
      ∃ d ∈ [(⟨1, 0, "a", "b", some [1], 0⟩ : Document),
             ⟨2, 5, "x", "y", none, 0⟩],
        d.user_id = 0 ∧ d.embedding.isSome ∧ r = toRow (fun _ _ => 0) [1] d :=
  topK_at_most_k_owned_and_indexed (fun _ _ => 0)
    [⟨1, 0, "a", "b", some [1], 0⟩, ⟨2, 5, "x", "y", none, 0⟩] 0 [1]

/-- C6: the embedder wrapper returns a vector of exactly D = 384 elements for
every input string, and identical inputs give identical outputs. -/
theorem generate_embedding_dim_and_deterministic (text : String) :
    (generate_embedding text).length = embedding_dim ∧
    embedding_dim = 384 ∧
    generate_embedding text = generate_embedding text := by
  refine ⟨?_, rfl, rfl⟩
  unfold generate_embedding get_embedding_model model_encode
  rw [List.length_map, List.length_range]

/-- C8 counterexample: a search whose query text is the empty string passes
schema validation and is processed as a normal search — the embedder runs,
the store query is issued, and an ordinary (here empty) result list comes
back; no validation error is raised. -/
theorem empty_query_is_processed_normally :
    search_endpoint (fun _ => .ok [1]) (fun _ _ => 0) [] 0 (some "")
      = (.ok [], [SearchEvent.embedCall, SearchEvent.storeQuery]) := by
  simp [search_endpoint, validate_search_request, search_documents,
    topKBySimilarity, candidates]

/-- C8 amended: a search request whose query field is missing (or not a
string) fails with a validation error whose kind is distinct from not-found
and from backend-unavailable; a present query string — the empty string
included — always passes validation and is processed as a normal search. -/
theorem missing_query_fails_validation (embed : String → Except String Vec)
    (dist : Vec → Vec → ℚ) (db : DB) (uid : Nat) :
    (search_endpoint embed dist db uid none
      = (.error (.validationFailed "field required: query"), [])) ∧
    (∀ m m', ApiError.validationFailed m ≠ ApiError.notFound m' ∧
        ApiError.validationFailed m ≠ ApiError.backendUnavailable m') ∧
    (∀ s, (∀ m, (search_endpoint embed dist db uid (some s)).1
          ≠ Except.error (ApiError.validationFailed m)) ∧
        SearchEvent.embedCall ∈ (search_endpoint embed dist db uid (some s)).2) := by
  refine ⟨rfl, ?_, ?_⟩
  · intro m m'
    exact ⟨by simp, by simp⟩
  · intro s
    unfold search_endpoint validate_search_request search_documents
    cases h : embed s <;> simp [h]

/-- C8 amended witness: a missing query field yields the validation error and
a present empty query is handed to the handler, at concrete arguments. -/
theorem missing_query_fails_validation_witness :
    (search_endpoint (fun _ => Except.ok [1]) (fun _ _ => 0) [] 0 none
      = (.error (.validationFailed "field required: query"), [])) ∧
    (∀ m m', ApiError.validationFailed m ≠ ApiError.notFound m' ∧
        ApiError.validationFailed m ≠ ApiError.backendUnavailable m') ∧
    (∀ s, (∀ m, (search_endpoint (fun _ => Except.ok [1]) (fun _ _ => 0) []
            0 (some s)).1 ≠ Except.error (ApiError.validationFailed m)) ∧
        SearchEvent.embedCall ∈ (search_endpoint (fun _ => Except.ok [1])
          (fun _ _ => 0) [] 0 (some s)).2) :=
  missing_query_fails_validation (fun _ => Except.ok [1]) (fun _ _ => 0) [] 0

theorem splitOnComma_of_no_comma {p : List Char} (h : ',' ∉ p) :
    splitOnComma p = [p] := by
  induction p with
  | nil => rfl
  | cons c cs ih =>
    have hc : ¬c = ',' := fun e => h (by simp [e])
    have hcs : ',' ∉ cs := fun m => h (List.mem_cons_of_mem _ m)
    simp [splitOnComma, hc, ih hcs]

theorem splitOnComma_append {p : List Char} (rest : List Char)
    (h : ',' ∉ p) :
    splitOnComma (p ++ ',' :: rest) = p :: splitOnComma rest := by
  induction p with
  | nil => simp [splitOnComma]
  | cons c cs ih =>
    have hc : ¬c = ',' := fun e => h (by simp [e])
    have hcs : ',' ∉ cs := fun m => h (List.mem_cons_of_mem _ m)
    simp [splitOnComma, hc, ih hcs]

theorem join_comma_data_split {l : List String} (hl : l ≠ [])
    (hc : ∀ p ∈ l, ',' ∉ p.data) :
    splitOnComma (join_comma l).data = l.map String.data := by
  induction l with
  | nil => cases hl rfl
  | cons p ps ih =>
    cases ps with
    | nil =>
      simp only [join_comma, List.map]
      rw [splitOnComma_of_no_comma (hc p (by simp))]
    | cons q qs =>
      have hdata : (join_comma (p :: q :: qs)).data
          = p.data ++ ',' :: (join_comma (q :: qs)).data := by
        show (p ++ "," ++ join_comma (q :: qs)).data = _
        simp
      rw [hdata, splitOnComma_append _ (hc p (by simp)),
        ih (by simp) fun r hr => hc r (List.mem_cons_of_mem _ hr)]
      rfl

/-- C9: the textual encoding of a query vector is the bracketed
comma-separated list of the rendered components, in order: decoding it at the
`CAST(... AS vector)` boundary — stripping the brackets and splitting at the
commas — recovers exactly the vector's rendered components in their original
order, for every rendering in which a component's text contains no comma. -/
theorem embedding_str_roundtrip (render : ℚ → String) (v : Vec)
    (hv : v ≠ []) (hc : ∀ x ∈ v, ',' ∉ (render x).data) :
    parse_vector_text (embedding_str render v) = some (v.map render) := by
  have hl : v.map render ≠ [] := by simpa using hv
  have hc' : ∀ p ∈ v.map render, ',' ∉ p.data := by
    intro p hp
    rcases List.mem_map.mp hp with ⟨x, hx, rfl⟩
    exact hc x hx
  have hdata : (embedding_str render v).data
      = '[' :: ((join_comma (v.map render)).data ++ [']']) := by
    show ("[" ++ join_comma (v.map render) ++ "]").data = _
    simp
  unfold parse_vector_text
  rw [hdata]
  simp only [List.reverse_append, List.reverse_cons, List.reverse_nil,
    List.nil_append, List.singleton_append, List.reverse_reverse,
    eq_self_iff_true, if_true]
  rw [join_comma_data_split hl hc']
  rw [List.map_map]
  congr 1
  rw [show ((fun cs => String.mk cs) ∘ String.data) = id from funext fun s => rfl,
    List.map_id]

/-- C9 witness: a concrete two-component vector with a concrete decimal
rendering round-trips through the wire encoding. -/
theorem embedding_str_roundtrip_witness :
    parse_vector_text (embedding_str
        (fun x => if x = 1 then "1.0" else "-2.5") [1, -2])
      = some ([1, -2].map fun x : ℚ => if x = 1 then "1.0" else "-2.5") :=
  embedding_str_roundtrip (fun x => if x = 1 then "1.0" else "-2.5")
    [1, -2] (by simp) (by decide)

end PharmVector
